import Mathlib

/-!
Shallow embedding of the tool-call round trip of `callFunction.ipynb`
(repository danyelkoca/openai).

The notebook is straight-line Python glue: it composes a one-element user
message list, sends it to the completions API together with a tool schema,
treats `response.output[0]` as a function call, parses its JSON `arguments`
with `json.loads`, invokes the local `get_weather` function, appends the
function-call item and a `function_call_output` item to the message list and
resubmits the whole list.  The two external collaborators — the completions
API and the weather HTTP endpoint — are modelled as oracle functions passed
in as arguments; everything the repository itself computes (JSON parsing,
dict lookups, string formatting, list appending) is embedded directly.
-/

/-- A JSON number as produced by `json.loads`: value `mantissa * 10 ^ exponent`.
`isFloat` records whether Python parses it to `float` (a fraction or exponent
part was present) or to `int`; Python's `str` renders the two differently. -/
structure JNumber where
  mantissa : Int
  exponent : Int
  isFloat : Bool
deriving DecidableEq

/-- A JSON value, the result type of `json.loads` / `response.json()`.
Objects keep their key-value pairs in source order; lookup takes the last
binding of a key, matching Python dict construction where later duplicate
keys overwrite earlier ones. -/
inductive Json where
  | null : Json
  | bool (b : Bool) : Json
  | num (n : JNumber) : Json
  | str (s : String) : Json
  | arr (elements : List Json) : Json
  | obj (members : List (String × Json)) : Json

/-- Whitespace skipping as in Python's JSON decoder (space, tab, newline, CR). -/
def skipWs : List Char → List Char
  | [] => []
  | c :: cs => if c = ' ' || c = '\t' || c = '\n' || c = '\r' then skipWs cs else c :: cs

/-- Longest prefix of decimal digits, with the rest of the input. -/
def takeDigits : List Char → List Char × List Char
  | [] => ([], [])
  | c :: cs =>
    if c.isDigit then
      match takeDigits cs with
      | (ds, rest) => (c :: ds, rest)
    else ([], c :: cs)

/-- Value of a digit string, accumulator style. -/
def digitsToNat : List Char → Nat → Nat
  | [], acc => acc
  | c :: cs, acc => digitsToNat cs (acc * 10 + (c.toNat - 48))

/-- Optional exponent part (`e`/`E`, optional sign, digits) of a JSON number.
Returns the exponent (if present) and the remaining input; fails when an
exponent marker is not followed by digits. -/
def parseExpPart (cs : List Char) : Option (Int × List Char) :=
  let step : List Char → Option (Int × List Char) := fun tail =>
    let (sgn, tail1) : Int × List Char :=
      match tail with
      | '+' :: r => (1, r)
      | '-' :: r => (-1, r)
      | _ => (1, tail)
    match takeDigits tail1 with
    | ([], _) => none
    | (ds, rest) => some (sgn * (digitsToNat ds 0 : Nat), rest)
  match cs with
  | 'e' :: tail => step tail
  | 'E' :: tail => step tail
  | _ => some (0, cs)

/-- Whether an exponent marker is present (so the number is a Python `float`). -/
def hasExpMarker : List Char → Bool
  | 'e' :: _ => true
  | 'E' :: _ => true
  | _ => false

/-- A JSON number literal: optional minus, integer part without leading
zeros, optional fraction (at least one digit), optional exponent — the
grammar accepted by `json.loads`. -/
def parseNumber (cs : List Char) : Option (JNumber × List Char) :=
  let (neg, cs1) : Bool × List Char :=
    match cs with
    | '-' :: rest => (true, rest)
    | _ => (false, cs)
  match takeDigits cs1 with
  | ([], _) => none
  | (d :: ds, cs2) =>
    if d = '0' ∧ ds ≠ [] then none
    else
      let intVal : Nat := digitsToNat (d :: ds) 0
      let fracStep : List Char → List Char → Option (JNumber × List Char) :=
        fun fracDigits cs3 =>
          match parseExpPart cs3 with
          | none => none
          | some (e, cs4) =>
            let isFloat := fracDigits ≠ [] || hasExpMarker cs3
            let mNat : Nat := intVal * 10 ^ fracDigits.length + digitsToNat fracDigits 0
            let m : Int := if neg then -(mNat : Int) else (mNat : Int)
            some (⟨m, e - fracDigits.length, isFloat⟩, cs4)
      match cs2 with
      | '.' :: rest =>
        match takeDigits rest with
        | ([], _) => none
        | (fd, cs3) => fracStep fd cs3
      | _ => fracStep [] cs2

/-- Value of a hexadecimal digit, for `\uXXXX` escapes. -/
def hexDigit (c : Char) : Option Nat :=
  if '0' ≤ c ∧ c ≤ '9' then some (c.toNat - 48)
  else if 'a' ≤ c ∧ c ≤ 'f' then some (c.toNat - 87)
  else if 'A' ≤ c ∧ c ≤ 'F' then some (c.toNat - 55)
  else none

/-- Body of a JSON string literal after the opening quote: handles the JSON
escapes and rejects unescaped control characters and unterminated strings,
as `json.loads` does.  Returns the decoded characters and the input after
the closing quote. -/
def parseStringBody : List Char → Option (List Char × List Char)
  | [] => none
  | '"' :: cs => some ([], cs)
  | '\\' :: '"' :: cs => (fun p => ('"' :: p.1, p.2)) <$> parseStringBody cs
  | '\\' :: '\\' :: cs => (fun p => ('\\' :: p.1, p.2)) <$> parseStringBody cs
  | '\\' :: '/' :: cs => (fun p => ('/' :: p.1, p.2)) <$> parseStringBody cs
  | '\\' :: 'b' :: cs => (fun p => ((Char.ofNat 8) :: p.1, p.2)) <$> parseStringBody cs
  | '\\' :: 'f' :: cs => (fun p => ((Char.ofNat 12) :: p.1, p.2)) <$> parseStringBody cs
  | '\\' :: 'n' :: cs => (fun p => ('\n' :: p.1, p.2)) <$> parseStringBody cs
  | '\\' :: 'r' :: cs => (fun p => ('\r' :: p.1, p.2)) <$> parseStringBody cs
  | '\\' :: 't' :: cs => (fun p => ('\t' :: p.1, p.2)) <$> parseStringBody cs
  | '\\' :: 'u' :: a :: b :: c :: d :: cs => do
    let ha ← hexDigit a
    let hb ← hexDigit b
    let hc ← hexDigit c
    let hd ← hexDigit d
    let p ← parseStringBody cs
    some (Char.ofNat (((ha * 16 + hb) * 16 + hc) * 16 + hd) :: p.1, p.2)
  | '\\' :: _ => none
  | c :: cs =>
    if c.toNat < 32 then none
    else (fun p => (c :: p.1, p.2)) <$> parseStringBody cs

mutual

/-- A JSON value (object, array, string, number, literal), with the remaining
input.  Fuel makes the mutual recursion structural; `parseJson` supplies
more fuel than any input can consume. -/
def parseValue : Nat → List Char → Option (Json × List Char)
  | 0, _ => none
  | fuel + 1, cs =>
    match skipWs cs with
    | [] => none
    | '"' :: cs1 =>
      match parseStringBody cs1 with
      | none => none
      | some (chars, rest) => some (.str (String.mk chars), rest)
    | '{' :: cs1 =>
      match skipWs cs1 with
      | '}' :: cs2 => some (.obj [], cs2)
      | cs2 =>
        match parseMembers fuel cs2 with
        | none => none
        | some (kvs, rest) => some (.obj kvs, rest)
    | '[' :: cs1 =>
      match skipWs cs1 with
      | ']' :: cs2 => some (.arr [], cs2)
      | cs2 =>
        match parseElems fuel cs2 with
        | none => none
        | some (xs, rest) => some (.arr xs, rest)
    | 't' :: 'r' :: 'u' :: 'e' :: cs1 => some (.bool true, cs1)
    | 'f' :: 'a' :: 'l' :: 's' :: 'e' :: cs1 => some (.bool false, cs1)
    | 'n' :: 'u' :: 'l' :: 'l' :: cs1 => some (.null, cs1)
    | cs1 =>
      match parseNumber cs1 with
      | none => none
      | some (n, rest) => some (.num n, rest)

/-- The members of a JSON object after the opening brace (non-empty case):
`"key" : value` pairs separated by commas, up to the closing brace. -/
def parseMembers : Nat → List Char → Option (List (String × Json) × List Char)
  | 0, _ => none
  | fuel + 1, cs =>
    match skipWs cs with
    | '"' :: cs1 =>
      match parseStringBody cs1 with
      | none => none
      | some (key, cs2) =>
        match skipWs cs2 with
        | ':' :: cs3 =>
          match parseValue fuel cs3 with
          | none => none
          | some (v, cs4) =>
            match skipWs cs4 with
            | ',' :: cs5 =>
              match parseMembers fuel cs5 with
              | none => none
              | some (kvs, rest) => some ((String.mk key, v) :: kvs, rest)
            | '}' :: cs5 => some ([(String.mk key, v)], cs5)
            | _ => none
        | _ => none
    | _ => none

/-- The elements of a JSON array after the opening bracket (non-empty case). -/
def parseElems : Nat → List Char → Option (List Json × List Char)
  | 0, _ => none
  | fuel + 1, cs =>
    match parseValue fuel cs with
    | none => none
    | some (v, cs1) =>
      match skipWs cs1 with
      | ',' :: cs2 =>
        match parseElems fuel cs2 with
        | none => none
        | some (xs, rest) => some (v :: xs, rest)
      | ']' :: cs2 => some ([v], cs2)
      | _ => none

end

/-- Embedding of `json.loads`: parse one JSON value and require the rest of
the input to be whitespace; `none` models `json.JSONDecodeError`. -/
def parseJson (s : String) : Option Json :=
  match parseValue (2 * s.length + 8) s.data with
  | none => none
  | some (j, rest) =>
    match skipWs rest with
    | [] => some j
    | _ => none

/-- Decimal digits of a natural number. -/
def natDigits (n : Nat) : List Char := (toString n).data

/-- Drop trailing zero characters (used for Python float rendering). -/
def dropTrailingZeros (l : List Char) : List Char :=
  (l.reverse.dropWhile (fun c => c = '0')).reverse

/-- Python `str` of a number produced by `json.loads`: an `int` renders with
no decimal point, a `float` renders as a plain decimal with at least one
fractional digit and no trailing zeros (the exact-decimal values exercised
here, such as `20.5`, render identically in Python; scientific notation for
extreme magnitudes is not modelled). -/
def pyStrNum (n : JNumber) : String :=
  if n.isFloat then
    let sign := if n.mantissa < 0 then "-" else ""
    let m := n.mantissa.natAbs
    if 0 ≤ n.exponent then
      sign ++ toString (m * 10 ^ n.exponent.toNat) ++ ".0"
    else
      let k := (-n.exponent).toNat
      let ds := natDigits m
      let padded := if ds.length ≤ k then List.replicate (k + 1 - ds.length) '0' ++ ds else ds
      let ip := padded.take (padded.length - k)
      let fp := dropTrailingZeros (padded.drop (padded.length - k))
      let fp2 := if fp = [] then ['0'] else fp
      sign ++ String.mk ip ++ "." ++ String.mk fp2
  else toString n.mantissa

mutual

/-- Python `repr` of a `json.loads` value (the rendering Python uses for
elements inside containers): strings are quoted, `True`/`False`/`None`
keywords, dicts and lists with their braces and brackets. -/
def pyRepr : Json → String
  | .null => "None"
  | .bool true => "True"
  | .bool false => "False"
  | .num n => pyStrNum n
  | .str s => "\x27" ++ s ++ "\x27"
  | .arr xs => "[" ++ String.intercalate ", " (pyReprList xs) ++ "]"
  | .obj kvs => "\x7b" ++ String.intercalate ", " (pyReprMembers kvs) ++ "\x7d"

/-- Renderings of the elements of a list value. -/
def pyReprList : List Json → List String
  | [] => []
  | j :: js => pyRepr j :: pyReprList js

/-- Renderings of the members of a dict value. -/
def pyReprMembers : List (String × Json) → List String
  | [] => []
  | (k, v) :: kvs => ("\x27" ++ k ++ "\x27: " ++ pyRepr v) :: pyReprMembers kvs

end

/-- Python `str` of a `json.loads` value: like `repr` except that a
top-level string renders without quotes.  This is the `str(result)` and
f-string interpolation used by the notebook. -/
def pyStr : Json → String
  | .null => "None"
  | .bool true => "True"
  | .bool false => "False"
  | .num n => pyStrNum n
  | .str s => s
  | .arr xs => pyRepr (.arr xs)
  | .obj kvs => pyRepr (.obj kvs)

/-- The errors the notebook's code can raise, named after the spec's
taxonomy where it has a name: `parseError` is `json.JSONDecodeError` from
`json.loads` / `response.json()`; `keyError` and `typeError` are Python's
errors for a missing dict key and for subscripting a non-dict;
`indexError` is `response.output[0]` on an empty output; `attributeError`
is `tool_call.arguments` on an output item that is not a function call.
`lookupError` is the spec's UnknownFunctionError for an unregistered
function name; the source has no code path that raises it. -/
inductive Err where
  | parseError : Err
  | keyError : Err
  | typeError : Err
  | indexError : Err
  | attributeError : Err
  | lookupError : Err
deriving DecidableEq

/-- Python `data[key]` on a `json.loads` value: the last binding of the key
when `data` is a dict (later duplicate keys overwrite earlier ones),
`keyError` when the key is absent, `typeError` when `data` is not a dict. -/
def jIndex (j : Json) (key : String) : Except Err Json :=
  match j with
  | .obj kvs =>
    match (kvs.filter (fun kv => kv.1 = key)).getLast? with
    | some kv => .ok kv.2
    | none => .error .keyError
  | _ => .error .typeError

/-- First fixed part of the open-meteo forecast URL built by `get_weather`. -/
def weatherUrlBase : String := "https://api.open-meteo.com/v1/forecast?latitude="

/-- Middle fixed part of the forecast URL, between the two coordinates. -/
def weatherUrlMid : String := "&longitude="

/-- Trailing fixed part of the forecast URL: it asks the endpoint for the
current wind speed and for hourly series besides the current temperature. -/
def weatherUrlTail : String :=
  "&current=temperature_2m,wind_speed_10m&hourly=temperature_2m,relative_humidity_2m,wind_speed_10m"

/-- The f-string URL of `get_weather`, with the two coordinates interpolated
by Python `str`. -/
def weatherUrl (latitude longitude : Json) : String :=
  weatherUrlBase ++ pyStr latitude ++ weatherUrlMid ++ pyStr longitude ++ weatherUrlTail

/-- The projection `data["current"]["temperature_2m"]` performed by
`get_weather` on the parsed response body. -/
def extractTemp (data : Json) : Except Err Json :=
  (jIndex data "current").bind (fun c => jIndex c "temperature_2m")

/-- Embedding of the notebook's `get_weather`: fetch the forecast URL (the
HTTP transport is the oracle `http`, giving the response body for a URL),
parse the body as JSON (`response.json()`), and return
`data["current"]["temperature_2m"]`. -/
def get_weather (latitude longitude : Json) (http : String → String) : Except Err Json :=
  let body := http (weatherUrl latitude longitude)
  match parseJson body with
  | none => .error .parseError
  | some data => extractTemp data

/-- Role of a chat message (the source only ever constructs `user`). -/
inductive Role where
  | user : Role
  | assistant : Role
  | system : Role
deriving DecidableEq

/-- An element of the `input` message list sent to the completions API:
either a role/content chat message, a function-call item echoed back from a
response, or a `function_call_output` dict. -/
inductive Message where
  | chat (role : Role) (content : String) : Message
  | functionCall (call_id : String) (name : String) (arguments : String) : Message
  | functionCallOutput (call_id : String) (output : String) : Message
deriving DecidableEq

/-- An item of `response.output`: a `ResponseFunctionToolCall` (with its
`call_id`, `name` and JSON-encoded `arguments`) or any other output item
carrying text (e.g. `ResponseOutputMessage`), which has no `arguments`
attribute. -/
inductive OutputItem where
  | functionCall (call_id : String) (name : String) (arguments : String) : OutputItem
  | message (text : String) : OutputItem
deriving DecidableEq

/-- Whether an output item is a function-call item. -/
def isFunctionCall : OutputItem → Bool
  | .functionCall _ _ _ => true
  | .message _ => false

/-- A response of `client.responses.create`: the ordered `output` items and
the `output_text` convenience field. -/
structure Response where
  output : List OutputItem
  output_text : String

/-- The tool schema declared in the notebook, as the JSON payload sent to
the API. -/
def tools : Json :=
  .arr [.obj
    [("type", .str "function"),
     ("name", .str "get_weather"),
     ("description", .str "Get current temperature for provided coordinates in celsius."),
     ("parameters", .obj
       [("type", .str "object"),
        ("properties", .obj
          [("latitude", .obj [("type", .str "number")]),
           ("longitude", .obj [("type", .str "number")])]),
        ("required", .arr [.str "latitude", .str "longitude"]),
        ("additionalProperties", .bool false)]),
     ("strict", .bool true)]]

/-- The Request Composer: from the user's free-text query (and the declared
tool schemas, which go into the API request but not into the message list)
the source builds a message list with the single user message. -/
def composeRequest (query : String) (_tools : Json) : List Message :=
  [Message.chat Role.user query]

/-- The notebook's literal `input_messages` value. -/
def input_messages : List Message :=
  composeRequest "What\x27s the weather like in Tokyo today?" tools

/-- One invocation of the local `get_weather` function (the only local
function; the source calls it with exactly the two positional arguments
`args["latitude"]` and `args["longitude"]`). -/
structure Invocation where
  latitude : Json
  longitude : Json

/-- The Tool Dispatcher cell, as a function of the selected output item:
`args = json.loads(tool_call.arguments)` followed by
`result = get_weather(args["latitude"], args["longitude"])`.  Returns the
list of local-function invocations performed (the trace) together with the
result or error.  Reading `.arguments` of a non-function-call item raises
`attributeError`.  The item's `name` field is never consulted: the call to
`get_weather` is hard-coded. -/
def dispatchItem (item : OutputItem) (http : String → String) :
    List Invocation × Except Err Json :=
  match item with
  | .message _ => ([], .error .attributeError)
  | .functionCall _ _ argStr =>
    match parseJson argStr with
    | none => ([], .error .parseError)
    | some args =>
      match jIndex args "latitude" with
      | .error e => ([], .error e)
      | .ok lat =>
        match jIndex args "longitude" with
        | .error e => ([], .error e)
        | .ok lon => ([⟨lat, lon⟩], get_weather lat lon http)

/-- The Follow-up Composer: `input_messages.append(tool_call)` followed by
appending the `function_call_output` dict built from `tool_call.call_id`
and `str(result)`. -/
def followUp (msgs : List Message) (call_id name arguments : String) (result : Json) :
    List Message :=
  msgs ++ [Message.functionCall call_id name arguments,
           Message.functionCallOutput call_id (pyStr result)]

/-- The whole custom-tool round trip of the notebook (Step 1), as a function
of the completions API oracle `api` (the model and tools arguments are the
fixed literals of the source and are absorbed into the oracle) and the HTTP
oracle `http`: compose the one-message input, send it, take
`response.output[0]` as the tool call, dispatch it, append the function-call
item and its output to the message list, resubmit the full list and return
it with the final `output_text`.  The trace lists the local `get_weather`
invocations performed. -/
def toolCallFlow (query : String) (api : List Message → Response) (http : String → String) :
    List Invocation × Except Err (List Message × String) :=
  let msgs := composeRequest query tools
  let response := api msgs
  match response.output.head? with
  | none => ([], .error .indexError)
  | some (.message _) => ([], .error .attributeError)
  | some (.functionCall call_id name argStr) =>
    match dispatchItem (.functionCall call_id name argStr) http with
    | (tr, .error e) => (tr, .error e)
    | (tr, .ok result) =>
      let msgs2 := followUp msgs call_id name argStr result
      let response_2 := api msgs2
      (tr, .ok (msgs2, response_2.output_text))

/-- The built-in web-search cell (Step 2): the response's `output_text` is
printed directly; there is no dispatcher and no local function invocation. -/
def webSearchFlow (api : String → Response) (query : String) :
    List Invocation × String :=
  ([], (api query).output_text)

/-- The notebook's query string. -/
def query0 : String := "What\x27s the weather like in Tokyo today?"

/-- The arguments string the recorded run's model emitted. -/
def okArgStr : String := "\x7b\"latitude\":35.682839,\"longitude\":139.759455\x7d"

/-- The call id of the recorded run. -/
def callId0 : String := "call_KqM2XlFWwa9VKR6A35JbXK1m"

/-- The latitude value parsed from `okArgStr`. -/
def lat0 : Json := .num ⟨35682839, -6, true⟩

/-- The longitude value parsed from `okArgStr`. -/
def lon0 : Json := .num ⟨139759455, -6, true⟩

/-- The temperature value 20.5 as `json.loads` produces it. -/
def temp0 : Json := .num ⟨205, -1, true⟩

/-- The minimal weather endpoint body of testable property 4. -/
def body0 : String := "\x7b\"current\":\x7b\"temperature_2m\":20.5\x7d\x7d"

/-- An HTTP oracle whose endpoint always answers with `body0`. -/
def http0 : String → String := fun _ => body0

/-- A weather body with the same current temperature but extra fields
(current wind speed, an hourly series) as the real endpoint returns. -/
def bodyFull : String :=
  "\x7b\"current\":\x7b\"temperature_2m\":20.5,\"wind_speed_10m\":3.2\x7d,\"hourly\":\x7b\"temperature_2m\":[20.5,21.0]\x7d\x7d"

/-- An HTTP oracle whose endpoint always answers with `bodyFull`. -/
def httpFull : String → String := fun _ => bodyFull

/-- A completions oracle reproducing the recorded run: the first call (one
message) answers with the recorded function-call item, the follow-up call
answers with plain text. -/
def api0 : List Message → Response := fun msgs =>
  if msgs.length = 1 then
    { output := [.functionCall callId0 "get_weather" okArgStr], output_text := "" }
  else
    { output := [.message "The weather in Tokyo today is 20.5 degrees."],
      output_text := "The weather in Tokyo today is 20.5 degrees." }

/-- A completions oracle that never asks for a tool: its output holds a
single plain message and no function-call item. -/
def apiText : List Message → Response := fun _ =>
  { output := [.message "Plain answer"], output_text := "Plain answer" }

/-- A completions oracle that emits a function call whose name is not the
name of any locally implemented function. -/
def apiUnknownName : List Message → Response := fun _ =>
  { output := [.functionCall "call_1" "unknown_function" okArgStr], output_text := "" }

/-- A truncated arguments payload: malformed JSON. -/
def badArgStr : String := "\x7b\"latitude\":35.6"

/-- The recorded-run invocation of `get_weather`. -/
def inv0 : Invocation := ⟨lat0, lon0⟩

/-- The message list the recorded run resubmits in its second API call. -/
def msgs2rec : List Message :=
  [Message.chat Role.user query0,
   Message.functionCall callId0 "get_weather" okArgStr,
   Message.functionCallOutput callId0 "20.5"]

/-- The final text of the modelled recorded run. -/
def finalText0 : String := "The weather in Tokyo today is 20.5 degrees."

/-- The `json.loads` value of `body0`. -/
def jMin : Json := .obj [("current", .obj [("temperature_2m", temp0)])]

/-- The `json.loads` value of `bodyFull`. -/
def jFull : Json :=
  .obj [("current", .obj [("temperature_2m", temp0),
                          ("wind_speed_10m", .num ⟨32, -1, true⟩)]),
        ("hourly", .obj [("temperature_2m", .arr [temp0, .num ⟨210, -1, true⟩])])]

/-- A successful run of `toolCallFlow` decomposes into: the first response's
head output item is a function call, dispatching it gave the trace and the
result, the resubmitted list is the follow-up composition, and the final
text is the second response's `output_text` on that full list. -/
theorem toolCallFlow_ok_shape (q : String) (api : List Message → Response)
    (http : String → String) (tr : List Invocation) (msgs2 : List Message) (txt : String)
    (h : toolCallFlow q api http = (tr, .ok (msgs2, txt))) :
    ∃ cid name args result,
      (api (composeRequest q tools)).output.head? = some (.functionCall cid name args) ∧
      dispatchItem (.functionCall cid name args) http = (tr, .ok result) ∧
      msgs2 = followUp (composeRequest q tools) cid name args result ∧
      txt = (api msgs2).output_text := by
  simp only [toolCallFlow] at h
  cases hh : (api (composeRequest q tools)).output.head? with
  | none => rw [hh] at h; simp at h
  | some item =>
    cases item with
    | message t => rw [hh] at h; simp at h
    | functionCall cid name args =>
      rw [hh] at h
      simp only at h
      cases hd : dispatchItem (.functionCall cid name args) http with
      | mk tr2 res =>
        rw [hd] at h
        cases res with
        | error e => simp at h
        | ok result =>
          simp only at h
          obtain ⟨h1, h2⟩ := Prod.mk.injEq .. |>.mp h
          obtain ⟨h3, h4⟩ := Prod.mk.injEq .. |>.mp (Except.ok.injEq .. |>.mp h2)
          exact ⟨cid, name, args, result, rfl, by rw [hd, h1], by rw [← h3], by rw [← h4, ← h3]⟩

/-- Every result of `jIndex` is a `keyError`, a `typeError` or a value;
in particular it is never the spec's `lookupError`. -/
theorem jIndex_cases (j : Json) (k : String) :
    jIndex j k = .error Err.keyError ∨ jIndex j k = .error Err.typeError ∨
    ∃ v, jIndex j k = .ok v := by
  cases j with
  | obj kvs =>
    cases h : (kvs.filter (fun kv => kv.1 = k)).getLast? with
    | none => exact Or.inl (by simp [jIndex, h])
    | some kv => exact Or.inr (Or.inr ⟨kv.2, by simp [jIndex, h]⟩)
  | null => exact Or.inr (Or.inl rfl)
  | bool b => exact Or.inr (Or.inl rfl)
  | num n => exact Or.inr (Or.inl rfl)
  | str s => exact Or.inr (Or.inl rfl)
  | arr xs => exact Or.inr (Or.inl rfl)

/-- The projection `extractTemp` never produces the spec's `lookupError`. -/
theorem extractTemp_ne_lookupError (data : Json) :
    extractTemp data ≠ .error Err.lookupError := by
  unfold extractTemp
  rcases jIndex_cases data "current" with h | h | ⟨v, h⟩ <;> rw [h]
  · simp [Except.bind]
  · simp [Except.bind]
  · rcases jIndex_cases v "temperature_2m" with h2 | h2 | ⟨w, h2⟩ <;>
      simp [Except.bind, h2]

/-- The local `get_weather` never produces the spec's `lookupError`. -/
theorem get_weather_ne_lookupError (lat lon : Json) (http : String → String) :
    get_weather lat lon http ≠ .error Err.lookupError := by
  simp only [get_weather]
  cases hp : parseJson (http (weatherUrl lat lon)) with
  | none => simp
  | some data => simpa using extractTemp_ne_lookupError data

/-- C1: for a message sequence of length 1 (a single user query) whose first
response yields a function call, the sequence sent in the second API call is
the original sequence with exactly two items appended, in order: the
function-call item first, then the function-call-output item; the full
accumulated sequence, not just the delta, is resubmitted. -/
theorem secondCall_appends_in_order (q : String) (api : List Message → Response)
    (http : String → String) (tr : List Invocation) (msgs2 : List Message) (txt : String)
    (h : toolCallFlow q api http = (tr, .ok (msgs2, txt))) :
    (composeRequest q tools).length = 1 ∧
    ∃ cid name args out,
      (api (composeRequest q tools)).output.head? = some (.functionCall cid name args) ∧
      msgs2 = composeRequest q tools ++
        [Message.functionCall cid name args, Message.functionCallOutput cid out] ∧
      txt = (api msgs2).output_text := by
  obtain ⟨cid, name, args, result, h1, h2, h3, h4⟩ :=
    toolCallFlow_ok_shape q api http tr msgs2 txt h
  exact ⟨rfl, cid, name, args, pyStr result, h1, by rw [h3]; rfl, h4⟩

/-- Witness for C1: the hypothesis and conclusion hold on the recorded run. -/
theorem secondCall_appends_in_order_witness :
    toolCallFlow query0 api0 http0 = ([inv0], .ok (msgs2rec, finalText0)) ∧
    ((composeRequest query0 tools).length = 1 ∧
     ∃ cid name args out,
       (api0 (composeRequest query0 tools)).output.head? = some (.functionCall cid name args) ∧
       msgs2rec = composeRequest query0 tools ++
         [Message.functionCall cid name args, Message.functionCallOutput cid out] ∧
       finalText0 = (api0 msgs2rec).output_text) :=
  ⟨rfl, secondCall_appends_in_order query0 api0 http0 [inv0] msgs2rec finalText0 rfl⟩

/-- C2 counterexample: on a response whose output holds zero function-call
items, the custom-tool pipeline does not skip the dispatcher and return the
plain text — it fails with `attributeError` while reading
`tool_call.arguments` of `response.output[0]`. -/
theorem noFunctionCall_dispatcher_fails :
    (∀ item ∈ (apiText (composeRequest query0 tools)).output, isFunctionCall item = false) ∧
    (apiText (composeRequest query0 tools)).output_text = "Plain answer" ∧
    toolCallFlow query0 apiText http0 = ([], .error .attributeError) := by
  refine ⟨by decide, rfl, rfl⟩

/-- C2 amended: a response with zero function-call items never reaches a
local function on the custom-tool path — that path performs no invocation
and fails instead of returning the text; only the built-in-tool cell
(`webSearchFlow`) returns `output_text` directly, with no dispatcher. -/
theorem noFunctionCall_no_invocation (q : String) (api : List Message → Response)
    (http : String → String)
    (h : ∀ item ∈ (api (composeRequest q tools)).output, isFunctionCall item = false) :
    (toolCallFlow q api http).1 = [] ∧
    (∃ e, (toolCallFlow q api http).2 = Except.error e) ∧
    ∀ api2 q2, webSearchFlow api2 q2 = ([], (api2 q2).output_text) := by
  refine ⟨?_, ?_, fun api2 q2 => rfl⟩ <;>
  · simp only [toolCallFlow]
    cases hh : (api (composeRequest q tools)).output with
    | nil => simp [hh]
    | cons item rest =>
      have hfc := h item (by rw [hh]; exact List.mem_cons_self item rest)
      cases item with
      | functionCall cid name args => simp [isFunctionCall] at hfc
      | message t => simp [hh]

/-- Witness for C2's amended claim at the no-tool-call oracle. -/
theorem noFunctionCall_no_invocation_witness :
    (∀ item ∈ (apiText (composeRequest query0 tools)).output, isFunctionCall item = false) ∧
    ((toolCallFlow query0 apiText http0).1 = [] ∧
     (∃ e, (toolCallFlow query0 apiText http0).2 = Except.error e) ∧
     ∀ api2 q2, webSearchFlow api2 q2 = ([], (api2 q2).output_text)) :=
  ⟨by decide, noFunctionCall_no_invocation query0 apiText http0 (by decide)⟩

/-- C3: in every message sequence produced by the Follow-up Composer the
appended function-call-output item carries the same `call_id` string as the
function-call item it answers, and that function-call item stands at an
earlier position of the same sequence. -/
theorem followUp_call_id_matches (msgs : List Message) (cid name args : String) (r : Json) :
    ∃ i j : Nat, i < j ∧
      (followUp msgs cid name args r)[i]? = some (Message.functionCall cid name args) ∧
      (followUp msgs cid name args r)[j]? =
        some (Message.functionCallOutput cid (pyStr r)) := by
  refine ⟨msgs.length, msgs.length + 1, Nat.lt_succ_self _, ?_, ?_⟩
  · rw [followUp, List.getElem?_append_right (Nat.le_refl _)]
    simp
  · rw [followUp, List.getElem?_append_right (Nat.le_succ_of_le (Nat.le_refl _))]
    simp

/-- C4: a function-call item whose arguments payload is malformed JSON makes
the dispatcher fail with `parseError`, and the local function is never
invoked (the invocation trace is empty). -/
theorem malformed_args_parse_error (cid name args : String) (http : String → String)
    (h : parseJson args = none) :
    dispatchItem (.functionCall cid name args) http = ([], .error .parseError) := by
  simp [dispatchItem, h]

/-- Witness for C4 at the truncated arguments string. -/
theorem malformed_args_parse_error_witness :
    parseJson badArgStr = none ∧
    dispatchItem (.functionCall callId0 "get_weather" badArgStr) http0 =
      ([], .error .parseError) :=
  ⟨rfl, malformed_args_parse_error callId0 "get_weather" badArgStr http0 rfl⟩

/-- C5: when the weather endpoint answers with the body
`\x7b"current":\x7b"temperature_2m":20.5\x7d\x7d`, `get_weather` returns the value
20.5 (the `json.loads` value of the literal `20.5`) and the output field of
the function-call-output item appended by the round trip is exactly the
string `20.5`. -/
theorem weather_body_output_exact :
    http0 (weatherUrl lat0 lon0) = body0 ∧
    get_weather lat0 lon0 http0 = .ok temp0 ∧
    parseJson "20.5" = some temp0 ∧
    pyStr temp0 = "20.5" ∧
    (toolCallFlow query0 api0 http0).2 = .ok (msgs2rec, finalText0) ∧
    msgs2rec.getLast? = some (Message.functionCallOutput callId0 "20.5") :=
  ⟨rfl, rfl, rfl, rfl, rfl, rfl⟩

/-- C6: dispatching a function-call item whose arguments string is
`\x7b"latitude":35.682839,"longitude":139.759455\x7d` invokes the local
`get_weather` exactly once, with latitude 35.682839 and longitude
139.759455 (the `json.loads` values of those two literals) as its only
arguments, whatever the call id, name and HTTP transport. -/
theorem dispatch_passes_coordinates (cid name : String) (http : String → String) :
    parseJson "35.682839" = some lat0 ∧
    parseJson "139.759455" = some lon0 ∧
    (dispatchItem (.functionCall cid name okArgStr) http).1 = [⟨lat0, lon0⟩] :=
  ⟨rfl, rfl, rfl⟩

/-- C7 counterexample: a function-call item named `unknown_function` — a name
under which no local function is registered — is dispatched by invoking
`get_weather` anyway, successfully, and no `lookupError` is produced. -/
theorem unknown_name_still_invokes :
    dispatchItem (.functionCall "call_1" "unknown_function" okArgStr) httpFull =
      ([⟨lat0, lon0⟩], .ok temp0) ∧
    (dispatchItem (.functionCall "call_1" "unknown_function" okArgStr) httpFull).2 ≠
      Except.error Err.lookupError := by
  refine ⟨rfl, ?_⟩
  intro hc
  have e : (dispatchItem (.functionCall "call_1" "unknown_function" okArgStr) httpFull).2 =
      Except.ok temp0 := rfl
  rw [e] at hc
  exact Except.noConfusion hc

/-- C7 amended: the dispatcher never consults the function-call item's name
field — dispatching is identical for any two names and any two call ids —
and no dispatch ever fails with the spec's `lookupError`; the name
`get_weather` is hard-coded at the call site. -/
theorem dispatch_ignores_name (cid cid2 name name2 args : String) (http : String → String) :
    dispatchItem (.functionCall cid name args) http =
      dispatchItem (.functionCall cid2 name2 args) http ∧
    (dispatchItem (.functionCall cid name args) http).2 ≠ Except.error Err.lookupError := by
  refine ⟨rfl, ?_⟩
  simp only [dispatchItem]
  cases hp : parseJson args with
  | none => simp
  | some args' =>
    simp only
    rcases jIndex_cases args' "latitude" with h | h | ⟨lat, h⟩ <;> rw [h] <;> simp only <;>
      try simp
    rcases jIndex_cases args' "longitude" with h2 | h2 | ⟨lon, h2⟩ <;> rw [h2] <;> simp only <;>
      try simp
    simpa using get_weather_ne_lookupError lat lon http

/-- C8: the Request Composer, given a user free-text query and the declared
tool schemas, produces an initial message sequence of length exactly 1 whose
single element is a user-role message carrying the query as content. -/
theorem composeRequest_single_user (query : String) (ts : Json) :
    (composeRequest query ts).length = 1 ∧
    (composeRequest query ts).head? = some (Message.chat Role.user query) :=
  ⟨rfl, rfl⟩

/-- C9: the message sequence is append-only across the round trip: after the
follow-up call the resubmitted sequence still starts with the original,
unchanged user message, the original one-message sequence being a prefix. -/
theorem flow_append_only (q : String) (api : List Message → Response)
    (http : String → String) (tr : List Invocation) (msgs2 : List Message) (txt : String)
    (h : toolCallFlow q api http = (tr, .ok (msgs2, txt))) :
    msgs2.head? = some (Message.chat Role.user q) ∧
    ∃ rest, msgs2 = composeRequest q tools ++ rest := by
  obtain ⟨cid, name, args, result, h1, h2, h3, h4⟩ :=
    toolCallFlow_ok_shape q api http tr msgs2 txt h
  subst h3
  exact ⟨rfl, _, rfl⟩

/-- Witness for C9 on the recorded run. -/
theorem flow_append_only_witness :
    toolCallFlow query0 api0 http0 = ([inv0], .ok (msgs2rec, finalText0)) ∧
    (msgs2rec.head? = some (Message.chat Role.user query0) ∧
     ∃ rest, msgs2rec = composeRequest query0 tools ++ rest) :=
  ⟨rfl, flow_append_only query0 api0 http0 [inv0] msgs2rec finalText0 rfl⟩

/-- C10: `get_weather` returns exactly the `current.temperature_2m` field of
the endpoint's parsed JSON body — two bodies agreeing on that field give the
same result, every other field being discarded — even though the request URL
asks the endpoint for wind speed and hourly series as well. -/
theorem get_weather_temp_only (lat lon : Json) (h1 h2 : String → String) (j1 j2 : Json)
    (hp1 : parseJson (h1 (weatherUrl lat lon)) = some j1)
    (hp2 : parseJson (h2 (weatherUrl lat lon)) = some j2)
    (hagree : extractTemp j1 = extractTemp j2) :
    get_weather lat lon h1 = extractTemp j1 ∧
    get_weather lat lon h1 = get_weather lat lon h2 ∧
    ∃ a, weatherUrl lat lon =
      a ++ "&current=temperature_2m,wind_speed_10m&hourly=temperature_2m,relative_humidity_2m,wind_speed_10m" := by
  refine ⟨?_, ?_, ?_⟩
  · simp only [get_weather]
    rw [hp1]
  · simp only [get_weather]
    rw [hp1, hp2]
    show extractTemp j1 = extractTemp j2
    exact hagree
  · exact ⟨weatherUrlBase ++ pyStr lat ++ weatherUrlMid ++ pyStr lon, rfl⟩

/-- Witness for C10: a full endpoint body (wind speed, hourly series) and the
minimal body agree on `current.temperature_2m`, and `get_weather` answers the
same on both. -/
theorem get_weather_temp_only_witness :
    parseJson (httpFull (weatherUrl lat0 lon0)) = some jFull ∧
    parseJson (http0 (weatherUrl lat0 lon0)) = some jMin ∧
    extractTemp jFull = extractTemp jMin ∧
    (get_weather lat0 lon0 httpFull = extractTemp jFull ∧
     get_weather lat0 lon0 httpFull = get_weather lat0 lon0 http0 ∧
     ∃ a, weatherUrl lat0 lon0 =
       a ++ "&current=temperature_2m,wind_speed_10m&hourly=temperature_2m,relative_humidity_2m,wind_speed_10m") :=
  ⟨rfl, rfl, rfl, get_weather_temp_only lat0 lon0 httpFull http0 jFull jMin rfl rfl rfl⟩
